import Mathlib

/-!
Shallow embedding of the biopics-mcp server (`src/index.ts`): the request
client `api`, the eight registered MCP tool handlers, and the tool registry.
Machine-level concerns owned by the JS runtime (JSON serialization of the
success payload, the actual socket I/O of `fetch`) are modelled as structured
values and an oracle function respectively; everything the repository's own
code computes — URLs, query strings, headers, request bodies, response
envelopes — is embedded as executable Lean definitions.
-/

/-- JSON values, as produced and consumed by the server: `res.json()` results
and outbound request bodies.  Numbers are modelled as integers (every numeric
value the claims touch is integral). -/
inductive Json where
  | null
  | bool (b : Bool)
  | num (n : Int)
  | str (s : String)
  | arr (elems : List Json)
  | obj (fields : List (String × Json))

/-- The keys of a JSON object, in insertion order; `[]` for non-objects. -/
def Json.objKeys : Json → List String
  | .obj fields => fields.map Prod.fst
  | _ => []

/-- Identity configuration read once at startup (index.ts lines 20-24):
`AGENT_NAME = process.env.BIOPICS_AGENT || "mcp-agent"`,
`MODEL_NAME = process.env.BIOPICS_MODEL || ""`,
`USER_TOKEN = process.env.BIOPICS_USER_TOKEN || ""`.  An unset optional
setting is the empty string, and the code tests them by JS truthiness, so
"configured" means non-empty. -/
structure Config where
  agentName : String := "mcp-agent"
  modelName : String := ""
  userToken : String := ""

/-- `const API_BASE = "https://api.biopics.ai"` (index.ts line 17). -/
def API_BASE : String := "https://api.biopics.ai"

/-- The single text content item of a tool response.  `toolResult` serializes
its payload with `JSON.stringify(data, null, 2)`; serialization and parsing
are owned by the JS runtime, so the payload is carried as the structured
`Json` value itself (parsing the serialized text yields exactly this value). -/
inductive ToolContent where
  | json (payload : Json)
  | text (s : String)

/-- A tool response envelope: one content item plus the `isError` flag
(set only by `toolError`). -/
structure Envelope where
  content : ToolContent
  isError : Bool

/-- `toolResult` (index.ts lines 30-32): wraps remote JSON as a success
envelope. -/
def toolResult (data : Json) : Envelope :=
  { content := .json data, isError := false }

/-- `toolError` (index.ts lines 34-37): wraps a failure message as an error
envelope with text `Error: <msg>`.  Every failure raised in the embedded code
is an `Error` carrying a message string, so the `instanceof` branch always
takes the message. -/
def toolError (msg : String) : Envelope :=
  { content := .text ("Error: " ++ msg), isError := true }

/-- The `RequestInit` options a handler passes to `api`: method (default
GET), optional JSON body, extra headers. -/
structure RequestOptions where
  method : String := "GET"
  body : Option Json := none
  headers : List (String × String) := []

/-- An outbound HTTP request as handed to `fetch`. -/
structure HttpRequest where
  url : String
  method : String
  headers : List (String × String)
  body : Option Json

/-- JS `path.includes("?")`, a single-character substring test. -/
def containsChar (s : String) (c : Char) : Bool := s.data.contains c

/-- URL construction of the request client (index.ts lines 44-46):
`sep = path.includes("?") ? "&" : "?"`,
`agentSuffix = USER_TOKEN ? "" : sep + "agent=" + AGENT_NAME`,
`url = API_BASE + path + agentSuffix`. -/
def buildUrl (cfg : Config) (path : String) : String :=
  let sep := if containsChar path '?' then "&" else "?"
  let agentSuffix := if cfg.userToken = "" then sep ++ "agent=" ++ cfg.agentName else ""
  API_BASE ++ path ++ agentSuffix

/-- Default headers of every request (index.ts lines 48-53): content type and
agent name always; model name and bearer token only when configured. -/
def defaultHeaders (cfg : Config) : List (String × String) :=
  [("Content-Type", "application/json"), ("X-Agent-Name", cfg.agentName)]
    ++ (if cfg.modelName = "" then [] else [("X-Model", cfg.modelName)])
    ++ (if cfg.userToken = "" then [] else [("Authorization", "Bearer " ++ cfg.userToken)])

/-- The request `api` hands to `fetch` (index.ts lines 55-61).  Headers are
the JS spread `{...headers, ...options?.headers}`: defaults first, then the
caller's, so on a key collision the caller's (later) binding wins. -/
def buildRequest (cfg : Config) (path : String) (opts : RequestOptions) : HttpRequest :=
  { url := buildUrl cfg path
    method := opts.method
    headers := defaultHeaders cfg ++ opts.headers
    body := opts.body }

/-- The effective value of header `k` in a header list with JS-object
semantics: the last binding of a key wins. -/
def headerValue (hs : List (String × String)) (k : String) : Option String :=
  (hs.reverse.find? (fun p => p.1 == k)).map Prod.snd

/-- The outcome of one `fetch` call: an HTTP response — status, body text as
`res.text()` reads it, and the result of parsing the body for `res.json()`
(`.error` models the parse throwing) — or a network-level failure (the fetch
promise rejecting with a message). -/
inductive FetchOutcome where
  | response (status : Nat) (bodyText : String) (bodyJson : Except String Json)
  | networkError (msg : String)

/-- `res.ok`: status in the inclusive range 200-299. -/
def statusOk (status : Nat) : Bool := 200 ≤ status && status < 300

/-- Response handling of the request client (index.ts lines 63-68): a non-2xx
status throws `API <status>: <body text>`; a 2xx response yields its parsed
JSON body (a JSON parse failure also throws). -/
def handleResponse : FetchOutcome → Except String Json
  | .networkError msg => .error msg
  | .response status bodyText bodyJson =>
      if statusOk status then bodyJson
      else .error ("API " ++ toString status ++ ": " ++ bodyText)

/-- The request client `api` (index.ts lines 43-69), the runtime `fetch`
passed in as an oracle: build the URL and headers, perform the one call,
handle the response.  A thrown failure is an `.error` result. -/
def api (cfg : Config) (path : String) (opts : RequestOptions)
    (fetch : HttpRequest → FetchOutcome) : Except String Json :=
  handleResponse (fetch (buildRequest cfg path opts))

/-- UTF-8 byte encoding of one character (RFC 3629). -/
def utf8Bytes (c : Char) : List Nat :=
  let v := c.toNat
  if v < 0x80 then [v]
  else if v < 0x800 then [0xC0 + v / 0x40, 0x80 + v % 0x40]
  else if v < 0x10000 then [0xE0 + v / 0x1000, 0x80 + v / 0x40 % 0x40, 0x80 + v % 0x40]
  else [0xF0 + v / 0x40000, 0x80 + v / 0x1000 % 0x40, 0x80 + v / 0x40 % 0x40, 0x80 + v % 0x40]

/-- Uppercase hexadecimal digit (`'0'` on out-of-range input, never reached
from byte encoding). -/
def hexChar (n : Nat) : Char := "0123456789ABCDEF".data.getD n '0'

/-- Percent-encoding of one byte: `%` followed by two uppercase hex digits. -/
def percentByte (b : Nat) : List Char := ['%', hexChar (b / 16), hexChar (b % 16)]

/-- `application/x-www-form-urlencoded` serialization of one character, as
`URLSearchParams.toString` emits it: ASCII alphanumerics and `*`, `-`, `.`,
`_` kept verbatim, space becomes `+`, every other character percent-encoded
byte by byte. -/
def encodeChar (c : Char) : List Char :=
  if c = ' ' then ['+']
  else if c.isAlphanum || c = '*' || c = '-' || c = '.' || c = '_' then [c]
  else (utf8Bytes c).map percentByte |>.flatten

/-- Form-urlencoding of a whole string. -/
def formEncode (s : String) : String := ⟨(s.data.map encodeChar).flatten⟩

/-- The mutable key-value list behind `new URLSearchParams()`. -/
structure URLSearchParams where
  pairs : List (String × String)

/-- `params.set(k, v)`: overwrite the value of an existing key, else append
the pair. -/
def URLSearchParams.set (p : URLSearchParams) (k v : String) : URLSearchParams :=
  if p.pairs.any (fun q => q.1 == k) then
    ⟨p.pairs.map (fun q => if q.1 == k then (k, v) else q)⟩
  else ⟨p.pairs ++ [(k, v)]⟩

/-- `params.toString()`: the `key=value` pairs joined with `&`, keys and
values form-urlencoded. -/
def URLSearchParams.toString (p : URLSearchParams) : String :=
  String.intercalate "&" (p.pairs.map (fun q => formEncode q.1 ++ "=" ++ formEncode q.2))

/-- JS truthiness of an optional string argument (`if (s)`): present and
non-empty. -/
def strTruthy : Option String → Bool
  | none => false
  | some s => s != ""

/-- JS truthiness of an optional number argument (`if (n)`): present and
non-zero. -/
def numTruthy : Option Int → Bool
  | none => false
  | some n => n != 0

/-- The `priority` enum of find_needs: `z.enum(["high", "medium", "low"])`. -/
inductive Priority where
  | high
  | medium
  | low

/-- The wire string of a priority value. -/
def Priority.toApiString : Priority → String
  | .high => "high"
  | .medium => "medium"
  | .low => "low"

/-- The `status` enum of my_contributions:
`z.enum(["pending", "approved", "rejected", "integrated", "needs-revision"])`. -/
inductive ContributionStatus where
  | pending
  | approved
  | rejected
  | integrated
  | needsRevision

/-- The wire string of a contribution status. -/
def ContributionStatus.toApiString : ContributionStatus → String
  | .pending => "pending"
  | .approved => "approved"
  | .rejected => "rejected"
  | .integrated => "integrated"
  | .needsRevision => "needs-revision"

/-- Path of get_assignment (line 91): the slug substituted directly. -/
def getAssignmentPath (slug : String) : String := "/assignment/" ++ slug

/-- Path of submit_contribution (line 126). -/
def submitContributionPath (slug : String) : String := "/contribute/" ++ slug

/-- Path of review_person (line 147). -/
def reviewPersonPath (slug : String) : String := "/review/" ++ slug

/-- Path of check_confidence (line 261). -/
def checkConfidencePath (slug : String) : String := "/confidence/" ++ slug

/-- Query parameters browse_people sets (lines 168-172): each key only when
its argument is truthy — a supplied empty string or zero is skipped. -/
def browsePeopleParams (q tag : Option String) (page limit : Option Int) : URLSearchParams :=
  let params : URLSearchParams := ⟨[]⟩
  let params := match q with
    | some s => if s != "" then params.set "q" s else params
    | none => params
  let params := match tag with
    | some s => if s != "" then params.set "tag" s else params
    | none => params
  let params := match page with
    | some n => if n != 0 then params.set "page" (toString n) else params
    | none => params
  match limit with
    | some n => if n != 0 then params.set "limit" (toString n) else params
    | none => params

/-- Path of browse_people (lines 174-175): `/people` plus the query string
when non-empty. -/
def browsePeoplePath (q tag : Option String) (page limit : Option Int) : String :=
  let qs := (browsePeopleParams q tag page limit).toString
  "/people" ++ (if qs != "" then "?" ++ qs else "")

/-- Query parameters find_needs sets (lines 195-198).  A present `priority`
is one of the enum strings, all non-empty, so presence equals truthiness. -/
def findNeedsParams (priority : Option Priority) (tag : Option String)
    (limit : Option Int) : URLSearchParams :=
  let params : URLSearchParams := ⟨[]⟩
  let params := match priority with
    | some p => params.set "priority" p.toApiString
    | none => params
  let params := match tag with
    | some s => if s != "" then params.set "tag" s else params
    | none => params
  match limit with
    | some n => if n != 0 then params.set "limit" (toString n) else params
    | none => params

/-- Path of find_needs (lines 200-201). -/
def findNeedsPath (priority : Option Priority) (tag : Option String)
    (limit : Option Int) : String :=
  let qs := (findNeedsParams priority tag limit).toString
  "/needs" ++ (if qs != "" then "?" ++ qs else "")

/-- Query parameters my_contributions sets (lines 220-222).  A present
`status` is one of the enum strings, all non-empty, so presence equals
truthiness. -/
def myContributionsParams (status : Option ContributionStatus)
    (ty : Option String) : URLSearchParams :=
  let params : URLSearchParams := ⟨[]⟩
  let params := match status with
    | some st => params.set "status" st.toApiString
    | none => params
  match ty with
    | some s => if s != "" then params.set "type" s else params
    | none => params

/-- Path of my_contributions (lines 224-225). -/
def myContributionsPath (status : Option ContributionStatus)
    (ty : Option String) : String :=
  let qs := (myContributionsParams status ty).toString
  "/contributions" ++ (if qs != "" then "?" ++ qs else "")

/-- Path of leaderboard (line 243): built by direct string concatenation,
no URLSearchParams — `"/leaderboard" + (limit ? "?limit=" + limit : "")`. -/
def leaderboardPath (limit : Option Int) : String :=
  "/leaderboard" ++ (match limit with
    | some n => if n != 0 then "?limit=" ++ toString n else ""
    | none => "")

/-- The outbound JSON body fields of submit_contribution (lines 121-124):
required fields always present, each optional field appended only when its
value is truthy (non-empty string, non-zero number). -/
def submitBodyFields (ty content : String) (source_url : Option String)
    (scene_id : Option Int) (liberty_note : Option String) : List (String × Json) :=
  [("type", Json.str ty), ("content", Json.str content)]
    ++ (match source_url with
        | some s => if s != "" then [("source_url", Json.str s)] else []
        | none => [])
    ++ (match scene_id with
        | some n => if n != 0 then [("scene_id", Json.num n)] else []
        | none => [])
    ++ (match liberty_note with
        | some s => if s != "" then [("liberty_note", Json.str s)] else []
        | none => [])

/-- The semantic type of one declared tool parameter: `z.string()`,
`z.number()`, or `z.enum([...])`. -/
inductive ParamType where
  | string
  | number
  | enumOf (options : List String)

/-- One declared tool parameter: its name, type, optionality and (when the
source attaches `.describe(...)`) its description. -/
structure ParamSpec where
  name : String
  type : ParamType
  optional : Bool
  description : Option String

/-- One `server.tool(name, description, schema, handler)` registration. -/
structure ToolDecl where
  name : String
  description : String
  params : List ParamSpec

/-- The registry: the `server.tool` registrations of index.ts lines 83-266,
in source order. -/
def registry : List ToolDecl :=
  [ { name := "get_assignment"
      description := "Get your next assignment for a person's biographical documentary. Returns the current production phase, phase-specific instructions, a scene that needs work, and a template to fill. IMPORTANT: Also returns unverified facts that need source URLs — verify these by submitting a fact-check with a source_url. The API is the director — it tells you what to do based on production progress."
      params := [⟨"slug", .string, false, some "Person slug (e.g. 'abraham-lincoln', 'elonmusk', 'fridakahlo')"⟩] }
  , { name := "submit_contribution"
      description := "Submit a contribution to a person's biographical documentary. The type must match the current production phase. Phase 3 dramatization types require a liberty_note. For IMAGE contributions: search the web for real photographs, submit type 'image' with source_url pointing to the photo URL, and content describing what the photo shows (year, context, appearance). We need lots of reference photos from different eras."
      params :=
        [ ⟨"slug", .string, false, some "Person slug"⟩
        , ⟨"type", .string, false, some
            ("Contribution type. Phase 1: research, quote, work, timeline, fact-check, biography, source, image, video. "
              ++ "Phase 2: scene, story, scene-pitch, dialogue, dramatic-beat, character-note, pacing-suggestion, act-structure. "
              ++ "Phase 3: dramatization, composite-character, invented-dialogue, creative-liberty, dramatic-irony. "
              ++ "Phase 4: storyboard-prompt, camera-direction, lighting-setup, color-palette, wardrobe-note, set-description, visual-reference, shot-list. "
              ++ "Phase 5: ambient-sound, score-mood, music-cue, sound-effect, narration-cue, sonic-palette, silence-note. "
              ++ "Phase 6: transition, pacing-note, continuity-fix, title-card, cut-order, credits.")⟩
        , ⟨"content", .string, false, some "The contribution content"⟩
        , ⟨"source_url", .string, true, some "Verification URL (recommended for research types)"⟩
        , ⟨"scene_id", .number, true, some "Scene ID when contributing to a specific scene"⟩
        , ⟨"liberty_note", .string, true, some "Required for phase 3 dramatization types. Explains what was changed from verified facts and why."⟩ ] }
  , { name := "review_person"
      description := "Get a full phase-aware review of a person's biographical documentary. Returns all existing data (quotes, works, timelines, chapters), the current production phase with progress scores, phase-specific review instructions, and scenes needing work."
      params := [⟨"slug", .string, false, some "Person slug"⟩] }
  , { name := "browse_people"
      description := "Browse or search the 1,141 biographical entries. Filter by category tag or search by name."
      params :=
        [ ⟨"q", .string, true, some "Search by name"⟩
        , ⟨"tag", .string, true, some "Filter by category: Sport, Music, Film, History, Science, Art, Business, Literature"⟩
        , ⟨"page", .number, true, some "Page number (default 1)"⟩
        , ⟨"limit", .number, true, some "Results per page (default 50, max 100)"⟩ ] }
  , { name := "find_needs"
      description := "Find content gaps across all people. Returns people sorted by completeness score (lowest first) with their specific needs. Use this to find the most impactful work to do."
      params :=
        [ ⟨"priority", .enumOf ["high", "medium", "low"], true, some "high = score <30, medium = 30-60, low = 60-80"⟩
        , ⟨"tag", .string, true, some "Filter by category"⟩
        , ⟨"limit", .number, true, some "Results per page (default 50)"⟩ ] }
  , { name := "my_contributions"
      description := "List your submitted contributions and their statuses (pending, approved, rejected, integrated)."
      params :=
        [ ⟨"status", .enumOf ["pending", "approved", "rejected", "integrated", "needs-revision"], true, none⟩
        , ⟨"type", .string, true, some "Filter by contribution type"⟩ ] }
  , { name := "leaderboard"
      description := "View the top contributors ranked by approved contributions."
      params := [⟨"limit", .number, true, some "Number of results (default 20, max 50)"⟩] }
  , { name := "check_confidence"
      description := "Check the confidence/convergence stats for a person. Shows which facts have been independently verified by multiple agents, which have verified source URLs, and which are still unverified."
      params := [⟨"slug", .string, false, some "Person slug"⟩] } ]

/-- Validated arguments of one tool invocation, as zod hands them to the
handler: optional fields are `Option`, enum fields the corresponding enum. -/
inductive ToolArgs where
  | getAssignment (slug : String)
  | submitContribution (slug ty content : String) (source_url : Option String)
      (scene_id : Option Int) (liberty_note : Option String)
  | reviewPerson (slug : String)
  | browsePeople (q tag : Option String) (page limit : Option Int)
  | findNeeds (priority : Option Priority) (tag : Option String) (limit : Option Int)
  | myContributions (status : Option ContributionStatus) (ty : Option String)
  | leaderboard (limit : Option Int)
  | checkConfidence (slug : String)

/-- The request path each handler builds. -/
def pathOf : ToolArgs → String
  | .getAssignment slug => getAssignmentPath slug
  | .submitContribution slug _ _ _ _ _ => submitContributionPath slug
  | .reviewPerson slug => reviewPersonPath slug
  | .browsePeople q tag page limit => browsePeoplePath q tag page limit
  | .findNeeds priority tag limit => findNeedsPath priority tag limit
  | .myContributions status ty => myContributionsPath status ty
  | .leaderboard limit => leaderboardPath limit
  | .checkConfidence slug => checkConfidencePath slug

/-- The request options each handler passes to `api`: POST with a JSON body
for submit_contribution, plain GET for the rest. -/
def optsOf : ToolArgs → RequestOptions
  | .submitContribution _ ty content su sid ln =>
      { method := "POST", body := some (Json.obj (submitBodyFields ty content su sid ln)) }
  | _ => {}

/-- The one outbound request a tool invocation performs. -/
def requestOf (cfg : Config) (args : ToolArgs) : HttpRequest :=
  buildRequest cfg (pathOf args) (optsOf args)

/-- The uniform try/catch of every handler: `toolResult` on success,
`toolError` on any thrown failure. -/
def wrap : Except String Json → Envelope
  | .ok data => toolResult data
  | .error e => toolError e

/-- The eight registered tool handlers (index.ts lines 83-266), dispatched on
the tool invoked.  Each handler builds its path (and, for
submit_contribution, its body), delegates to `api`, and converts the outcome
into exactly one envelope via its try/catch. -/
def dispatch (cfg : Config) (args : ToolArgs) (fetch : HttpRequest → FetchOutcome) : Envelope :=
  match args with
  | .getAssignment slug => wrap (api cfg (getAssignmentPath slug) {} fetch)
  | .submitContribution slug ty content su sid ln =>
      wrap (api cfg (submitContributionPath slug)
        { method := "POST", body := some (Json.obj (submitBodyFields ty content su sid ln)) } fetch)
  | .reviewPerson slug => wrap (api cfg (reviewPersonPath slug) {} fetch)
  | .browsePeople q tag page limit => wrap (api cfg (browsePeoplePath q tag page limit) {} fetch)
  | .findNeeds priority tag limit => wrap (api cfg (findNeedsPath priority tag limit) {} fetch)
  | .myContributions status ty => wrap (api cfg (myContributionsPath status ty) {} fetch)
  | .leaderboard limit => wrap (api cfg (leaderboardPath limit) {} fetch)
  | .checkConfidence slug => wrap (api cfg (checkConfidencePath slug) {} fetch)

/-- Number of question-mark characters in a string. -/
def countQ (s : String) : Nat := s.data.count '?'

/-- Whether the user-interpolated path segment of the invocation (the slug,
substituted raw into the path) is free of question marks; tools without a
path parameter are unconstrained. -/
def slugClean : ToolArgs → Bool
  | .getAssignment slug => !(containsChar slug '?')
  | .submitContribution slug _ _ _ _ _ => !(containsChar slug '?')
  | .reviewPerson slug => !(containsChar slug '?')
  | .checkConfidence slug => !(containsChar slug '?')
  | _ => true

/-- Every handler is its try/catch wrapper around the one `api` call on the
request it builds. -/
theorem dispatch_eq_wrap (cfg : Config) (args : ToolArgs) (fetch : HttpRequest → FetchOutcome) :
    dispatch cfg args fetch = wrap (handleResponse (fetch (requestOf cfg args))) := by
  cases args <;> rfl

/-- C1: for every registered tool, every accepted argument assignment and
every fetch outcome, the handler returns exactly one response envelope — the
success envelope of the parsed payload when the call succeeded, the error
envelope of the failure message otherwise — and never throws past the
dispatch boundary. -/
theorem tool_invocation_exactly_one_envelope (cfg : Config) (args : ToolArgs)
    (fetch : HttpRequest → FetchOutcome) :
    (∃ data, handleResponse (fetch (requestOf cfg args)) = .ok data ∧
      dispatch cfg args fetch = toolResult data) ∨
    (∃ msg, handleResponse (fetch (requestOf cfg args)) = .error msg ∧
      dispatch cfg args fetch = toolError msg) := by
  rw [dispatch_eq_wrap]
  rcases h : handleResponse (fetch (requestOf cfg args)) with msg | data
  · exact .inr ⟨msg, rfl, rfl⟩
  · exact .inl ⟨data, rfl, rfl⟩

/-- C2: a non-2xx response of status S and body text B yields, for every
tool, an error envelope whose message text contains both S and B. -/
theorem non2xx_yields_error_with_status_and_body (cfg : Config) (args : ToolArgs)
    (fetch : HttpRequest → FetchOutcome) (S : Nat) (B : String) (bj : Except String Json)
    (hS : ¬ (200 ≤ S ∧ S < 300))
    (hf : fetch (requestOf cfg args) = .response S B bj) :
    dispatch cfg args fetch = toolError ("API " ++ toString S ++ ": " ++ B) ∧
    ∃ pre mid, (dispatch cfg args fetch).content =
      ToolContent.text (pre ++ toString S ++ mid ++ B) := by
  have hok : statusOk S = false := by
    simp [statusOk]
    omega
  have h1 : dispatch cfg args fetch = toolError ("API " ++ toString S ++ ": " ++ B) := by
    rw [dispatch_eq_wrap, hf]
    simp [handleResponse, hok, wrap]
  refine ⟨h1, "Error: API ", ": ", ?_⟩
  rw [h1]
  show ToolContent.text ("Error: " ++ ("API " ++ toString S ++ ": " ++ B)) = _
  have : ("Error: " ++ ("API " ++ toString S ++ ": " ++ B) : String)
      = "Error: API " ++ toString S ++ ": " ++ B := by
    have h2 : ("Error: " ++ "API " : String) = "Error: API " := rfl
    simp only [← String.append_assoc, h2]
  rw [this]

theorem non2xx_witness :
    ¬ ((200 : Nat) ≤ 404 ∧ (404 : Nat) < 300) ∧
    dispatch {} (.leaderboard none)
        (fun _ => .response 404 "not found" (.error "parse failure"))
      = toolError ("API " ++ toString (404 : Nat) ++ ": " ++ "not found") :=
  ⟨by decide,
    (non2xx_yields_error_with_status_and_body {} (.leaderboard none)
      (fun _ => .response 404 "not found" (.error "parse failure"))
      404 "not found" (.error "parse failure") (by decide) rfl).1⟩

/-- C3: a 2xx response whose body parses to B yields, for every tool, a
success envelope whose payload is exactly B. -/
theorem twoxx_yields_success_payload (cfg : Config) (args : ToolArgs)
    (fetch : HttpRequest → FetchOutcome) (S : Nat) (bt : String) (B : Json)
    (h1 : 200 ≤ S) (h2 : S < 300)
    (hf : fetch (requestOf cfg args) = .response S bt (.ok B)) :
    dispatch cfg args fetch = toolResult B ∧
    (dispatch cfg args fetch).content = ToolContent.json B ∧
    (dispatch cfg args fetch).isError = false := by
  have hok : statusOk S = true := by simp [statusOk]; omega
  have h : dispatch cfg args fetch = toolResult B := by
    rw [dispatch_eq_wrap, hf]
    simp [handleResponse, hok, wrap]
  exact ⟨h, by rw [h]; rfl, by rw [h]; rfl⟩

theorem twoxx_witness :
    (200 : Nat) ≤ 200 ∧ (200 : Nat) < 300 ∧
    dispatch {} (.getAssignment "fridakahlo")
        (fun _ => .response 200 "{}" (.ok (Json.obj [])))
      = toolResult (Json.obj []) :=
  ⟨by decide, by decide,
    (twoxx_yields_success_payload {} (.getAssignment "fridakahlo")
      (fun _ => .response 200 "{}" (.ok (Json.obj []))) 200 "{}" (Json.obj [])
      (by decide) (by decide) rfl).1⟩

/-- C4: the request client appends an agent query parameter exactly when no
bearer token is configured. -/
theorem agent_param_iff_no_token (cfg : Config) (path : String) :
    (cfg.userToken ≠ "" → buildUrl cfg path = API_BASE ++ path) ∧
    (cfg.userToken = "" → ∃ p, (p = API_BASE ++ path ++ "?" ∨ p = API_BASE ++ path ++ "&") ∧
      buildUrl cfg path = p ++ ("agent=" ++ cfg.agentName)) := by
  constructor
  · intro h
    simp [buildUrl, h]
  · intro h
    by_cases hq : containsChar path '?'
    · refine ⟨API_BASE ++ path ++ "&", .inr rfl, ?_⟩
      simp [buildUrl, h, hq, String.append_assoc]
      try rfl
    · refine ⟨API_BASE ++ path ++ "?", .inl rfl, ?_⟩
      simp [buildUrl, h, hq, String.append_assoc]
      try rfl

theorem agent_param_witness :
    ({ userToken := "tok" } : Config).userToken ≠ "" ∧
    buildUrl { userToken := "tok" } "/people" = API_BASE ++ "/people" ∧
    (∃ p, (p = API_BASE ++ "/people" ++ "?" ∨ p = API_BASE ++ "/people" ++ "&") ∧
      buildUrl {} "/people" = p ++ ("agent=" ++ ({} : Config).agentName)) :=
  ⟨by decide,
    (agent_param_iff_no_token { userToken := "tok" } "/people").1 (by decide),
    (agent_param_iff_no_token {} "/people").2 rfl⟩

/-- C6: submit_contribution called with scene_id = 0 sends a body without a
scene_id key — the truthiness-based inclusion check treats 0 as absent. -/
theorem scene_id_zero_omitted (cfg : Config) (slug ty content : String)
    (su ln : Option String) :
    ∃ fields, (requestOf cfg (.submitContribution slug ty content su (some 0) ln)).body
        = some (Json.obj fields) ∧ "scene_id" ∉ fields.map Prod.fst := by
  refine ⟨submitBodyFields ty content su (some 0) ln, rfl, ?_⟩
  rcases su with _ | s <;> rcases ln with _ | l <;>
    simp [submitBodyFields]

/-- C7: with only the required arguments supplied, the outbound body of
submit_contribution has exactly the keys type and content bound to the
supplied values; each optional field appears in the body iff it was supplied
truthy (non-empty string, non-zero number). -/
theorem required_only_body_exactly_type_content (cfg : Config) (slug ty content : String) :
    (requestOf cfg (.submitContribution slug ty content none none none)).body
      = some (Json.obj [("type", Json.str ty), ("content", Json.str content)]) ∧
    (∀ su : Option String, ∀ sid : Option Int, ∀ ln : Option String,
      ("source_url" ∈ (submitBodyFields ty content su sid ln).map Prod.fst ↔ strTruthy su) ∧
      ("scene_id" ∈ (submitBodyFields ty content su sid ln).map Prod.fst ↔ numTruthy sid) ∧
      ("liberty_note" ∈ (submitBodyFields ty content su sid ln).map Prod.fst ↔ strTruthy ln)) := by
  refine ⟨rfl, ?_⟩
  intro su sid ln
  rcases su with _ | s <;> rcases sid with _ | n <;> rcases ln with _ | l <;>
    simp [submitBodyFields, strTruthy, numTruthy]

/-- C8 counterexample: the registry declares eight tools, not nine. -/
theorem registry_length_not_nine : registry.length ≠ 9 ∧ registry.length = 8 := by decide

/-- C8 amended: the registry declares exactly eight named tools, in source
order, each with a non-empty description and the typed parameter schema the
spec tabulates (required and optional parameter names, and parameter types
including the two string enums). -/
theorem registry_declares_eight_tools :
    registry.length = 8 ∧
    registry.map (fun t => t.name)
      = ["get_assignment", "submit_contribution", "review_person", "browse_people",
         "find_needs", "my_contributions", "leaderboard", "check_confidence"] ∧
    registry.all (fun t => t.description != "") = true ∧
    registry.map (fun t => (((t.params.filter (fun p => !p.optional)).map (fun p => p.name)),
        ((t.params.filter (fun p => p.optional)).map (fun p => p.name))))
      = [ (["slug"], []),
          (["slug", "type", "content"], ["source_url", "scene_id", "liberty_note"]),
          (["slug"], []),
          ([], ["q", "tag", "page", "limit"]),
          ([], ["priority", "tag", "limit"]),
          ([], ["status", "type"]),
          ([], ["limit"]),
          (["slug"], []) ] ∧
    registry.map (fun t => t.params.map (fun p => p.type))
      = [ [.string],
          [.string, .string, .string, .string, .number, .string],
          [.string],
          [.string, .string, .number, .number],
          [.enumOf ["high", "medium", "low"], .string, .number],
          [.enumOf ["pending", "approved", "rejected", "integrated", "needs-revision"], .string],
          [.number],
          [.string] ] := by
  exact ⟨rfl, rfl, by decide, rfl, rfl⟩

/-- C5 counterexample: browse_people called with page supplied as 0 — a value
its schema accepts — builds path /people with no page query key, so a
supplied optional argument is not always sent. -/
theorem query_key_supplied_zero_counterexample :
    (some (0 : Int)).isSome = true ∧
    browsePeoplePath none none (some 0) none = "/people" ∧
    (browsePeopleParams none none (some 0) none).pairs.map Prod.fst = [] := by
  refine ⟨rfl, rfl, rfl⟩

/-- C5 amended: for every query-parameterized tool, the handler sends a query
key iff the corresponding optional argument was supplied with a truthy value
(non-empty string, non-zero number; a present enum argument is always
truthy); and the two concrete browse_people examples of the spec hold. -/
theorem query_key_iff_truthy_supplied :
    (∀ (q tag : Option String) (page limit : Option Int),
      (browsePeopleParams q tag page limit).pairs.map Prod.fst =
        (if strTruthy q then ["q"] else []) ++ (if strTruthy tag then ["tag"] else [])
          ++ (if numTruthy page then ["page"] else [])
          ++ (if numTruthy limit then ["limit"] else [])) ∧
    (∀ (priority : Option Priority) (tag : Option String) (limit : Option Int),
      (findNeedsParams priority tag limit).pairs.map Prod.fst =
        (if priority.isSome then ["priority"] else []) ++ (if strTruthy tag then ["tag"] else [])
          ++ (if numTruthy limit then ["limit"] else [])) ∧
    (∀ (status : Option ContributionStatus) (ty : Option String),
      (myContributionsParams status ty).pairs.map Prod.fst =
        (if status.isSome then ["status"] else []) ++ (if strTruthy ty then ["type"] else [])) ∧
    (∀ limit : Option Int,
      leaderboardPath limit =
        if numTruthy limit then "/leaderboard?limit=" ++ toString (limit.getD 0)
        else "/leaderboard") ∧
    browsePeoplePath none none none none = "/people" ∧
    browsePeoplePath none (some "Music") none none = "/people?tag=Music" := by
  refine ⟨?_, ?_, ?_, ?_, rfl, by decide⟩
  · intro q tag page limit
    rcases q with _ | s <;> rcases tag with _ | t <;> rcases page with _ | n <;>
      rcases limit with _ | m <;>
      simp only [browsePeopleParams, strTruthy, numTruthy] <;>
      split_ifs <;>
      simp_all [URLSearchParams.set]
  · intro priority tag limit
    rcases priority with _ | p <;> rcases tag with _ | t <;> rcases limit with _ | m <;>
      simp only [findNeedsParams, strTruthy, numTruthy, Option.isSome] <;>
      split_ifs <;>
      simp_all [URLSearchParams.set]
  · intro status ty
    rcases status with _ | st <;> rcases ty with _ | t <;>
      simp only [myContributionsParams, strTruthy, Option.isSome] <;>
      split_ifs <;>
      simp_all [URLSearchParams.set]
  · intro limit
    rcases limit with _ | n <;>
      simp only [leaderboardPath, numTruthy] <;>
      split_ifs <;>
      first
        | rfl
        | simp_all

/-- C9: every request dispatch builds carries X-Agent-Name with the agent
name; X-Model exactly when a model name is configured; Authorization with the
bearer token exactly when one is configured; and headers merge caller-last,
so a caller-supplied header overrides a default of the same key. -/
theorem request_headers_identity_and_merge (cfg : Config) (args : ToolArgs) :
    headerValue (requestOf cfg args).headers "X-Agent-Name" = some cfg.agentName ∧
    headerValue (requestOf cfg args).headers "X-Model"
      = (if cfg.modelName = "" then none else some cfg.modelName) ∧
    headerValue (requestOf cfg args).headers "Authorization"
      = (if cfg.userToken = "" then none else some ("Bearer " ++ cfg.userToken)) ∧
    (∀ (path : String) (opts : RequestOptions),
      (buildRequest cfg path opts).headers = defaultHeaders cfg ++ opts.headers) ∧
    (∀ (base extra : List (String × String)) (k : String),
      (extra.map Prod.fst).contains k = true →
      headerValue (base ++ extra) k = headerValue extra k) := by
  have hopts : (optsOf args).headers = [] := by cases args <;> rfl
  have hh : (requestOf cfg args).headers = defaultHeaders cfg := by
    show defaultHeaders cfg ++ (optsOf args).headers = defaultHeaders cfg
    rw [hopts, List.append_nil]
  refine ⟨?_, ?_, ?_, fun _ _ => rfl, ?_⟩
  · rw [hh]
    by_cases hm : cfg.modelName = "" <;> by_cases ht : cfg.userToken = "" <;>
      simp [defaultHeaders, headerValue, hm, ht, List.find?]
  · rw [hh]
    by_cases hm : cfg.modelName = "" <;> by_cases ht : cfg.userToken = "" <;>
      simp [defaultHeaders, headerValue, hm, ht, List.find?]
  · rw [hh]
    by_cases hm : cfg.modelName = "" <;> by_cases ht : cfg.userToken = "" <;>
      simp [defaultHeaders, headerValue, hm, ht, List.find?]
  · intro base extra k hk
    unfold headerValue
    rw [List.reverse_append, List.find?_append]
    have hex : ∃ x ∈ extra.reverse, (fun p => p.1 == k) x = true := by
      simp only [List.contains, List.elem_eq_mem, decide_eq_true_eq, List.mem_map] at hk
      rcases hk with ⟨x, hx, hfst⟩
      exact ⟨x, List.mem_reverse.mpr hx, by simp [hfst]⟩
    rcases hfind : extra.reverse.find? (fun p => p.1 == k) with _ | v
    · have h := List.find?_isSome.mpr hex
      rw [hfind] at h
      simp at h
    · rw [hfind]
      rfl

theorem countQ_append (a b : String) : countQ (a ++ b) = countQ a + countQ b := by
  cases a with
  | mk da =>
    cases b with
    | mk db =>
      show (da ++ db).count '?' = da.count '?' + db.count '?'
      exact List.count_append '?' da db

theorem countQ_eq_zero_of_not_contains (s : String) (h : containsChar s '?' = false) :
    countQ s = 0 := by
  simp only [containsChar, List.contains, List.elem_eq_mem, decide_eq_false_iff_not] at h
  exact List.count_eq_zero.mpr h

theorem countQ_pos_of_contains (s : String) (h : containsChar s '?' = true) :
    1 ≤ countQ s := by
  simp only [containsChar, List.contains, List.elem_eq_mem, decide_eq_true_eq] at h
  exact List.count_pos_iff.mpr h

theorem digitChar_ne_qmark (m : Nat) (h : m < 16) : Nat.digitChar m ≠ '?' := by
  interval_cases m <;> decide

theorem toDigitsCore_no_qmark (fuel : Nat) :
    ∀ (n : Nat) (ds : List Char), '?' ∉ ds → '?' ∉ Nat.toDigitsCore 10 fuel n ds := by
  induction fuel with
  | zero =>
    intro n ds h
    simpa [Nat.toDigitsCore] using h
  | succ f ih =>
    intro n ds h
    rw [Nat.toDigitsCore]
    have hd : '?' ∉ Nat.digitChar (n % 10) :: ds := by
      intro hmem
      rcases List.mem_cons.mp hmem with he | hin
      · exact digitChar_ne_qmark (n % 10) (by omega) he.symm
      · exact h hin
    by_cases hz : n / 10 = 0
    · simpa [hz] using hd
    · simpa [hz] using ih (n / 10) _ hd

theorem natRepr_no_qmark (m : Nat) : countQ (Nat.repr m) = 0 := by
  show (Nat.toDigits 10 m).count '?' = 0
  rw [List.count_eq_zero]
  exact toDigitsCore_no_qmark (m + 1) m [] (by simp)

theorem intToString_no_qmark (n : Int) : countQ (toString n) = 0 := by
  cases n with
  | ofNat m => exact natRepr_no_qmark m
  | negSucc m =>
    show countQ ("-" ++ Nat.repr (m + 1)) = 0
    rw [countQ_append, natRepr_no_qmark]
    decide

theorem hexChar_ne_qmark (n : Nat) : hexChar n ≠ '?' := by
  unfold hexChar
  by_cases h : n < 16
  · interval_cases n <;> decide
  · rw [List.getD_eq_default]
    · decide
    · show ("0123456789ABCDEF".data).length ≤ n
      have h16 : ("0123456789ABCDEF".data).length = 16 := rfl
      omega

theorem encodeChar_no_qmark (c : Char) : '?' ∉ encodeChar c := by
  unfold encodeChar
  split_ifs with h1 h2
  · simp
  · intro hmem
    rw [List.mem_singleton] at hmem
    subst hmem
    revert h2
    decide
  · intro hmem
    rcases List.mem_flatten.mp hmem with ⟨piece, hp, hc⟩
    rcases List.mem_map.mp hp with ⟨b, _, rfl⟩
    simp only [percentByte, List.mem_cons, List.mem_singleton] at hc
    rcases hc with he | he | he
    · exact absurd he (by decide)
    · exact hexChar_ne_qmark _ he.symm
    · simp at he
      exact hexChar_ne_qmark _ he.symm

theorem formEncode_no_qmark (s : String) : countQ (formEncode s) = 0 := by
  show ((s.data.map encodeChar).flatten).count '?' = 0
  rw [List.count_eq_zero]
  intro hmem
  rcases List.mem_flatten.mp hmem with ⟨piece, hp, hc⟩
  rcases List.mem_map.mp hp with ⟨c, _, rfl⟩
  exact encodeChar_no_qmark c hc

theorem intercalateGo_no_qmark (xs : List String) :
    ∀ (acc sep : String), countQ acc = 0 → countQ sep = 0 →
      (∀ x ∈ xs, countQ x = 0) → countQ (String.intercalate.go acc sep xs) = 0 := by
  induction xs with
  | nil =>
    intro acc sep ha _ _
    simpa [String.intercalate.go] using ha
  | cons x xs ih =>
    intro acc sep ha hs hx
    rw [String.intercalate.go]
    refine ih _ _ ?_ hs (fun y hy => hx y (List.mem_cons_of_mem _ hy))
    rw [countQ_append, countQ_append, ha, hs, hx x (List.mem_cons_self x xs)]

theorem params_toString_no_qmark (p : URLSearchParams) : countQ p.toString = 0 := by
  unfold URLSearchParams.toString
  have hall : ∀ x ∈ p.pairs.map (fun q => formEncode q.1 ++ "=" ++ formEncode q.2),
      countQ x = 0 := by
    intro x hx
    rcases List.mem_map.mp hx with ⟨q, _, rfl⟩
    rw [countQ_append, countQ_append, formEncode_no_qmark, formEncode_no_qmark]
    decide
  cases h : p.pairs.map (fun q => formEncode q.1 ++ "=" ++ formEncode q.2) with
  | nil =>
    rw [String.intercalate]
    decide
  | cons a as =>
    rw [String.intercalate]
    refine intercalateGo_no_qmark as a "&" ?_ (by decide) ?_
    · exact hall a (by rw [h]; exact List.mem_cons_self a as)
    · intro y hy
      exact hall y (by rw [h]; exact List.mem_cons_of_mem a hy)

theorem countQ_pathOf_le_one (args : ToolArgs) (h : slugClean args = true) :
    countQ (pathOf args) ≤ 1 := by
  cases args with
  | getAssignment slug =>
    simp only [slugClean, Bool.not_eq_true'] at h
    rw [pathOf, getAssignmentPath, countQ_append, countQ_eq_zero_of_not_contains slug h]
    decide
  | submitContribution slug ty content su sid ln =>
    simp only [slugClean, Bool.not_eq_true'] at h
    rw [pathOf, submitContributionPath, countQ_append, countQ_eq_zero_of_not_contains slug h]
    decide
  | reviewPerson slug =>
    simp only [slugClean, Bool.not_eq_true'] at h
    rw [pathOf, reviewPersonPath, countQ_append, countQ_eq_zero_of_not_contains slug h]
    decide
  | checkConfidence slug =>
    simp only [slugClean, Bool.not_eq_true'] at h
    rw [pathOf, checkConfidencePath, countQ_append, countQ_eq_zero_of_not_contains slug h]
    decide
  | browsePeople q tag page limit =>
    rw [pathOf, browsePeoplePath, countQ_append]
    split
    · rw [countQ_append, params_toString_no_qmark]
      decide
    · decide
  | findNeeds priority tag limit =>
    rw [pathOf, findNeedsPath, countQ_append]
    split
    · rw [countQ_append, params_toString_no_qmark]
      decide
    · decide
  | myContributions status ty =>
    rw [pathOf, myContributionsPath, countQ_append]
    split
    · rw [countQ_append, params_toString_no_qmark]
      decide
    · decide
  | leaderboard limit =>
    rw [pathOf]
    rcases limit with _ | n
    · simp only [leaderboardPath]
      decide
    · simp only [leaderboardPath]
      rw [countQ_append]
      split_ifs with hnz
      · rw [countQ_append, intToString_no_qmark]
        decide
      · decide

theorem request_headers_witness :
    headerValue (requestOf { agentName := "a", modelName := "m", userToken := "t" }
        (.leaderboard none)).headers "X-Agent-Name" = some "a" ∧
    headerValue ([("X-Agent-Name", "default")] ++ [("X-Agent-Name", "override")]) "X-Agent-Name"
      = headerValue [("X-Agent-Name", "override")] "X-Agent-Name" :=
  ⟨(request_headers_identity_and_merge
      { agentName := "a", modelName := "m", userToken := "t" } (.leaderboard none)).1,
    (request_headers_identity_and_merge {} (.leaderboard none)).2.2.2.2
      [("X-Agent-Name", "default")] [("X-Agent-Name", "override")] "X-Agent-Name" (by decide)⟩

/-- C10 counterexample: with no bearer token, a slug containing two question
marks — substituted raw into the path — yields a final URL with two question
marks, so "exactly one" does not hold for every tool path. -/
theorem url_question_marks_counterexample :
    ({} : Config).userToken = "" ∧
    countQ (requestOf {} (.getAssignment "a?b?c")).url = 2 ∧ (2 : Nat) ≠ 1 := by
  refine ⟨rfl, ?_, by decide⟩
  decide

/-- C10 amended: the request client appends the agent parameter with the
separator & when the given path already contains a question mark and with ?
otherwise; hence, with no bearer token, a question-mark-free agent name and a
question-mark-free slug (handler-built query strings never contain one), the
final URL contains exactly one question mark. -/
theorem url_contains_exactly_one_question_mark (cfg : Config) (args : ToolArgs)
    (htok : cfg.userToken = "") (hagent : containsChar cfg.agentName '?' = false)
    (hslug : slugClean args = true) :
    countQ (requestOf cfg args).url = 1 ∧
    (∀ path, containsChar path '?' = true →
      buildUrl cfg path = API_BASE ++ path ++ ("&" ++ ("agent=" ++ cfg.agentName))) ∧
    (∀ path, containsChar path '?' = false →
      buildUrl cfg path = API_BASE ++ path ++ ("?" ++ ("agent=" ++ cfg.agentName))) := by
  have hbase : countQ API_BASE = 0 := by decide
  have hagent0 : countQ cfg.agentName = 0 := countQ_eq_zero_of_not_contains _ hagent
  have hsep : ∀ path, containsChar path '?' = true →
      buildUrl cfg path = API_BASE ++ path ++ ("&" ++ ("agent=" ++ cfg.agentName)) := by
    intro path hq
    simp [buildUrl, htok, hq]
    try rfl
  have hsep' : ∀ path, containsChar path '?' = false →
      buildUrl cfg path = API_BASE ++ path ++ ("?" ++ ("agent=" ++ cfg.agentName)) := by
    intro path hq
    simp [buildUrl, htok, hq]
    try rfl
  refine ⟨?_, hsep, hsep'⟩
  show countQ (buildUrl cfg (pathOf args)) = 1
  have hle := countQ_pathOf_le_one args hslug
  have hamp : countQ "&" = 0 := by decide
  have hqm : countQ "?" = 1 := by decide
  have hag : countQ "agent=" = 0 := by decide
  by_cases hq : containsChar (pathOf args) '?'
  · have hge := countQ_pos_of_contains _ hq
    rw [hsep _ hq]
    simp only [countQ_append, hbase, hagent0, hamp, hag]
    omega
  · have h0 := countQ_eq_zero_of_not_contains _ (by simpa using hq)
    rw [hsep' _ (by simpa using hq)]
    simp only [countQ_append, hbase, hagent0, hqm, hag, h0]

theorem url_one_qmark_witness :
    ({} : Config).userToken = "" ∧
    containsChar ({} : Config).agentName '?' = false ∧
    slugClean (.browsePeople none (some "Music") none none) = true ∧
    countQ (requestOf {} (.browsePeople none (some "Music") none none)).url = 1 :=
  ⟨rfl, by decide, by decide,
    (url_contains_exactly_one_question_mark {} (.browsePeople none (some "Music") none none)
      rfl (by decide) (by decide)).1⟩
